import Mathlib

set_option autoImplicit false
set_option maxHeartbeats 1000000

/-!
Shallow embedding of the service-and-RPC core of the repository:
`src/nova/rpc.py`, `src/nova/context.py` and `src/nova/service.py`.

Python dictionaries that travel on the wire are modelled as association
lists `List (String × Val)` at the envelope level; values nested inside an
envelope are modelled by the mutual inductive `Val` below.  Side effects
(acks, publishes, log calls, sleeps) are modelled as explicit event traces.
-/

mutual
/-- A Python value as it appears inside an RPC envelope: JSON-style data
plus `obj`, which stands for an arbitrary Python instance (something that
carries a `__dict__` of named fields and is not JSON-serializable). -/
inductive Val where
  | null : Val
  | bool (b : Bool) : Val
  | num (n : Int) : Val
  | str (s : String) : Val
  | list (items : ValList) : Val
  | dict (pairs : ValPairs) : Val
  | obj (fields : ValPairs) : Val

/-- A list of nested `Val`s (the payload of `Val.list`). -/
inductive ValList where
  | nil : ValList
  | cons (head : Val) (tail : ValList) : ValList

/-- A keyed list of nested `Val`s (the payload of `Val.dict` and `Val.obj`). -/
inductive ValPairs where
  | nil : ValPairs
  | cons (key : String) (value : Val) (tail : ValPairs) : ValPairs
end

/-- Python truthiness (`if x:`) for the values modelled by `Val`:
`None`, `False`, `0`, `""`, `[]` and `{}` are falsy, instances are truthy. -/
def Val.truthy : Val → Bool
  | .null => false
  | .bool b => b
  | .num n => if n = 0 then false else true
  | .str s => if s = "" then false else true
  | .list .nil => false
  | .list (.cons _ _) => true
  | .dict .nil => false
  | .dict (.cons _ _ _) => true
  | .obj _ => true

mutual
/-- Whether `json.dumps` accepts the value: everything JSON-style is
serializable, a Python instance (`obj`) is not, and a container is
serializable exactly when all of its members are. -/
def Val.serializable : Val → Bool
  | .null => true
  | .bool _ => true
  | .num _ => true
  | .str _ => true
  | .list xs => ValList.serializable xs
  | .dict ps => ValPairs.serializable ps
  | .obj _ => false

/-- Serializability of every element of a `ValList`. -/
def ValList.serializable : ValList → Bool
  | .nil => true
  | .cons v tl => Val.serializable v && ValList.serializable tl

/-- Serializability of every value of a `ValPairs`. -/
def ValPairs.serializable : ValPairs → Bool
  | .nil => true
  | .cons _ v tl => Val.serializable v && ValPairs.serializable tl
end

mutual
/-- Python `repr` of a value, as used by `msg_reply`'s serialization
fallback and by `"%s" % dict` interpolation.  The `obj` case abstracts the
interpreter's `<... object at 0x...>` text, whose address is not modelled. -/
def Val.pyRepr : Val → String
  | .null => "None"
  | .bool b => if b then "True" else "False"
  | .num n => toString n
  | .str s => "\x27" ++ s ++ "\x27"
  | .list xs => "[" ++ ValList.pyReprItems xs ++ "]"
  | .dict ps => "\x7b" ++ ValPairs.pyReprItems ps ++ "\x7d"
  | .obj ps => "<object " ++ ValPairs.pyReprItems ps ++ ">"

/-- Comma-separated `repr`s of the elements of a `ValList`. -/
def ValList.pyReprItems : ValList → String
  | .nil => ""
  | .cons v .nil => Val.pyRepr v
  | .cons v tl => Val.pyRepr v ++ ", " ++ ValList.pyReprItems tl

/-- Comma-separated `'key': repr` items of a `ValPairs`. -/
def ValPairs.pyReprItems : ValPairs → String
  | .nil => ""
  | .cons k v .nil => "\x27" ++ k ++ "\x27: " ++ Val.pyRepr v
  | .cons k v tl => "\x27" ++ k ++ "\x27: " ++ Val.pyRepr v ++ ", " ++ ValPairs.pyReprItems tl
end

/-- Python `str` of a value, as used by `getattr(self.proxy, str(method))`:
for a string it is the string itself, otherwise it coincides with `repr`
for the values modelled here. -/
def Val.pyStr : Val → String
  | .str s => s
  | v => Val.pyRepr v

/-- Python `str(dict)` for a top-level envelope dictionary, used by the
`'No method for message: %s'` interpolation in `AdapterConsumer._receive`. -/
def envRepr : List (String × Val) → String
  | [] => "\x7b\x7d"
  | kvs => "\x7b" ++ String.intercalate (", ")
      (kvs.map (fun kv => "\x27" ++ kv.1 ++ "\x27: " ++ Val.pyRepr kv.2)) ++ "\x7d"

/-- The string `needle` occurs somewhere inside `hay`. -/
def strContains (needle hay : String) : Prop :=
  ∃ l r : List Char, hay.data = l ++ needle.data ++ r

/-- Python `str.startswith` on char lists. -/
def charsStart : List Char → List Char → Bool
  | [], _ => true
  | _ :: _, [] => false
  | p :: ps, c :: cs => (p == c) && charsStart ps cs

/-- Python `key.startswith(pre)`. -/
def pyStartswith (pre s : String) : Bool := charsStart pre.data s.data

/-- The `'_context_'` wire marker of `rpc.py`. -/
def ctxMarker : String := "_context_"

/-!
Datetime handling

`nova.utils.isotime`, `nova.utils.parse_isotime` and `nova.utils.utcnow`
are code of this repository that is not under `src/`; they are modelled
from the spec below.
-/

/-- A UTC wall-clock instant with second precision, the precision of the
ISO-8601 wire format described by the spec. -/
structure Datetime where
  year : Nat
  month : Nat
  day : Nat
  hour : Nat
  minute : Nat
  second : Nat

/-- Left-pad the decimal rendering of `n` with zeros to `w` characters. -/
def padNum (w n : Nat) : String :=
  String.mk (List.replicate (w - (Nat.repr n).length) ('0')) ++ Nat.repr n

/-- Modelled from the spec: `nova.utils.isotime` renders a UTC datetime in
the ISO-8601 form `YYYY-MM-DDTHH:MM:SSZ` (spec section 6, `_context_timestamp`). -/
def isotime (d : Datetime) : String :=
  padNum 4 d.year ++ "-" ++ padNum 2 d.month ++ "-" ++ padNum 2 d.day ++ "T" ++
    padNum 2 d.hour ++ ":" ++ padNum 2 d.minute ++ ":" ++ padNum 2 d.second ++ "Z"

/-- Decimal reading of a digit run (`int(s)` on each ISO-8601 field). -/
def digitsAcc : List Char → Nat → Nat
  | [], acc => acc
  | c :: cs, acc => digitsAcc cs (acc * 10 + (c.toNat - ('0').toNat))

/-- Modelled from the spec: `nova.utils.parse_isotime` reads the fixed
ISO-8601 positions of `YYYY-MM-DDTHH:MM:SSZ` back into a datetime. -/
def parse_isotime (s : String) : Datetime :=
  let cs := s.data
  ⟨digitsAcc (cs.take 4) 0,
   digitsAcc ((cs.drop 5).take 2) 0,
   digitsAcc ((cs.drop 8).take 2) 0,
   digitsAcc ((cs.drop 11).take 2) 0,
   digitsAcc ((cs.drop 14).take 2) 0,
   digitsAcc ((cs.drop 17).take 2) 0⟩

/-!
RequestContext (`src/nova/context.py`)

Randomness is modelled by a stream `r : Nat → Nat` of draws: the `i`-th
call of `random.choice(chars)` returns the character at index
`r i % chars.length`.
-/

/-- The character pool of `RequestContext.__init__`
(`'ABCDEFGHIJKLMNOPQRSTUVWXYZ1234567890-'`). -/
def requestIdChars : String := "ABCDEFGHIJKLMNOPQRSTUVWXYZ1234567890-"

/-- One `random.choice(chars)` draw. -/
def randomChoice (chars : String) (draw : Nat) : Char :=
  chars.data.getD (draw % chars.data.length) ('A')

/-- The 20-character random id generated by `RequestContext.__init__` when
`request_id` is falsy: `''.join([random.choice(chars) for x in xrange(20)])`. -/
def genRequestId (r : Nat → Nat) : String :=
  String.mk ((List.range 20).map (fun i => randomChoice requestIdChars (r i)))

/-- The `timestamp` argument of `RequestContext.__init__`: Python `None`,
a string, or a datetime instance. -/
inductive TsArg where
  | noneA : TsArg
  | strA (s : String) : TsArg
  | dtA (d : Datetime) : TsArg

/-- Python truthiness of the `timestamp` argument (`if not timestamp:`). -/
def TsArg.truthy : TsArg → Bool
  | .noneA => false
  | .strA s => if s = "" then false else true
  | .dtA _ => true

/-- The state of a `nova.context.RequestContext` instance.  `user`,
`tenant`, `groups`, `remote_address` and `request_id` are stored exactly as
passed (any wire value); the timestamp is always a datetime after
`__init__` for the inputs arising in this codebase. -/
structure RequestContext where
  user : Val
  tenant : Val
  groups : Val
  remote_address : Val
  timestamp : Datetime
  request_id : Val

/-- Constructor `RequestContext.__init__(tenant, user, groups, remote_address,
timestamp, request_id)`: falsy `groups` becomes `[]`
(`groups and groups or []`); a falsy timestamp is replaced by
`utils.utcnow()` (the `now` argument) and a string timestamp is parsed; a
falsy `request_id` is replaced by a fresh 20-character random id. -/
def RequestContext.init (tenant user groups remote_address : Val)
    (timestamp : TsArg) (request_id : Val) (now : Datetime) (r : Nat → Nat) :
    RequestContext :=
  let groups1 := if Val.truthy groups then groups else Val.list ValList.nil
  let ts1 := if TsArg.truthy timestamp then timestamp else TsArg.dtA now
  let ts2 := match ts1 with
    | TsArg.strA s => parse_isotime s
    | TsArg.dtA d => d
    | TsArg.noneA => now
  let rid := if Val.truthy request_id then request_id else Val.str (genRequestId r)
  ⟨user, tenant, groups1, remote_address, ts2, rid⟩

/-- Serialization `RequestContext.to_dict` (`src/nova/context.py`). -/
def RequestContext.to_dict (c : RequestContext) : List (String × Val) :=
  [("user", c.user), ("tenant", c.tenant), ("groups", c.groups),
   ("remote_address", c.remote_address),
   ("timestamp", Val.str (isotime c.timestamp)),
   ("request_id", c.request_id)]

/-- The keyword names `RequestContext.__init__` accepts. -/
def ctxAllowedKeys : List String :=
  ["tenant", "user", "groups", "remote_address", "timestamp", "request_id"]

/-- Deserialization `RequestContext.from_dict(values)`, i.e. `cls(**values)`: `none` models
the `TypeError` Python raises when a required keyword (`tenant`, `user`) is
missing or an unexpected keyword is present.  A non-string, non-null
`timestamp` value (which this codebase never produces on the wire) is left
outside the model and also mapped to `none`. -/
def RequestContext.from_dict (values : List (String × Val)) (now : Datetime)
    (r : Nat → Nat) : Option RequestContext :=
  if values.all (fun kv => ctxAllowedKeys.contains kv.1) then
    match values.lookup ("tenant"), values.lookup ("user") with
    | some tenant, some user =>
      let groups := (values.lookup ("groups")).getD Val.null
      let ra := (values.lookup ("remote_address")).getD Val.null
      let rid := (values.lookup ("request_id")).getD Val.null
      match values.lookup ("timestamp") with
      | none =>
          some (RequestContext.init tenant user groups ra TsArg.noneA rid now r)
      | some Val.null =>
          some (RequestContext.init tenant user groups ra TsArg.noneA rid now r)
      | some (Val.str s) =>
          some (RequestContext.init tenant user groups ra (TsArg.strA s) rid now r)
      | some _ => none
    | _, _ => none
  else none

/-!
Context packing (`_pack_context` / `_unpack_context`, `src/nova/rpc.py`)
-/

/-- Python `d[k] = v` on a dict modelled as an association list: an existing
key keeps its position and gets the new value, a fresh key is appended. -/
def dictSet (m : List (String × Val)) (kv : String × Val) : List (String × Val) :=
  if m.any (fun e => e.1 == kv.1) then
    m.map (fun e => if e.1 == kv.1 then (e.1, kv.2) else e)
  else m ++ [kv]

/-- Python `msg.update(other)`. -/
def dictUpdate (m other : List (String × Val)) : List (String × Val) :=
  other.foldl dictSet m

/-- Packing `_pack_context(msg, context)`: every field of `context.to_dict()` is
added to `msg` under its `_context_`-prefixed key. -/
def _pack_context (msg : List (String × Val)) (c : RequestContext) :
    List (String × Val) :=
  dictUpdate msg ((RequestContext.to_dict c).map (fun kv => (ctxMarker ++ kv.1, kv.2)))

/-- Unpacking `_unpack_context(msg)`: every `_context_`-marked key is popped from
`msg` and contributes its suffix (`key[9:]`) to the dict handed to
`RequestContext.from_dict`; the first component is the residual `msg`. -/
def _unpack_context (msg : List (String × Val)) (now : Datetime) (r : Nat → Nat) :
    List (String × Val) × Option RequestContext :=
  (msg.filter (fun kv => !(pyStartswith ctxMarker kv.1)),
   RequestContext.from_dict
     ((msg.filter (fun kv => pyStartswith ctxMarker kv.1)).map
       (fun kv => (kv.1.drop 9, kv.2)))
     now r)

/-!
Reply publication (`msg_reply`, `src/nova/rpc.py`)
-/

/-- The processed form of a `sys.exc_info()` triple as `msg_reply` turns it
into `(failure[0].__name__, str(failure[1]), traceback.format_exception(*failure))`.
The traceback lines are abstract data supplied by the raiser. -/
structure ExcInfo where
  typeName : String
  valueStr : String
  tbLines : List String

/-- The wire form of the `failure` field: `(type-name, str(value), tb-lines)`. -/
def FailTriple : Type := String × String × List String

/-- A reply envelope `{'result': ..., 'failure': ...}`. -/
structure ReplyEnv where
  result : Val
  failure : Option FailTriple

/-- Lift a list of strings to a `ValList`. -/
def strsToValList : List String → ValList
  | [] => ValList.nil
  | s :: tl => ValList.cons (Val.str s) (strsToValList tl)

/-- The reply envelope as the single Python dict handed to
`publisher.send`, for the serializability check. -/
def ReplyEnv.toVal (p : ReplyEnv) : Val :=
  Val.dict (ValPairs.cons ("result") p.result
    (ValPairs.cons ("failure")
      (match p.failure with
       | none => Val.null
       | some t => Val.list (ValList.cons (Val.str t.1)
           (ValList.cons (Val.str t.2.1)
             (ValList.cons (Val.list (strsToValList t.2.2)) ValList.nil))))
      ValPairs.nil))

/-- Mapping `repr` over each field of an instance's `__dict__`, the fallback payload of
`msg_reply` (`dict((k, repr(v)) for k, v in reply.__dict__.iteritems())`). -/
def ValPairs.mapRepr : ValPairs → ValPairs
  | .nil => .nil
  | .cons k v tl => .cons k (Val.str (Val.pyRepr v)) (ValPairs.mapRepr tl)

/-- Observable events of the RPC dispatch path. -/
inductive REvent where
  | ack : REvent
  | logWarnNoMethod : REvent
  | logException : REvent
  | lookupMethod (name : String) : REvent
  | invoke (name : String) : REvent
  | send (msgId : Option Val) (payload : ReplyEnv) : REvent
  | sendTypeError (msgId : Option Val) (payload : ReplyEnv) : REvent

/-- The outcome of a call to `msg_reply`: the publish attempts it makes,
and the exception escaping it, if any. -/
structure MsgReplyResult where
  events : List REvent
  raised : Option ExcInfo

/-- Reply publication `msg_reply(msg_id, reply, failure)` (`src/nova/rpc.py`): a `failure`
`exc_info` is first rewritten to its wire triple; the payload is sent on a
`DirectPublisher` for `msg_id`; if that send raises `TypeError` (payload
not JSON-serializable) one fallback send replaces the result with the
stringified `__dict__` of the reply — an `AttributeError` escapes instead
when the reply has no `__dict__`.  The `AttributeError`'s rendered text
abstracts the interpreter's wording. -/
def msg_reply (msgId : Option Val) (reply : Val) (failure : Option ExcInfo) :
    MsgReplyResult :=
  let failureW : Option FailTriple :=
    failure.map (fun e => (e.typeName, e.valueStr, e.tbLines))
  let payload : ReplyEnv := ⟨reply, failureW⟩
  if Val.serializable (ReplyEnv.toVal payload) then
    ⟨[REvent.send msgId payload], none⟩
  else
    match reply with
    | Val.obj fields =>
        ⟨[REvent.sendTypeError msgId payload,
          REvent.send msgId ⟨Val.dict (ValPairs.mapRepr fields), failureW⟩], none⟩
    | _ =>
        ⟨[REvent.sendTypeError msgId payload],
         some ⟨"AttributeError", "object has no attribute of that name", []⟩⟩

/-!
Dispatch (`AdapterConsumer._receive`, `src/nova/rpc.py`)
-/

/-- The outcome of invoking a handler method: a normal return value or a
raised exception (already in `sys.exc_info`-processed form). -/
inductive HOutcome where
  | ok (v : Val) : HOutcome
  | exc (e : ExcInfo) : HOutcome

/-- A handler method: receives the unpacked context and the normalized
keyword arguments. -/
def HandlerFn : Type := RequestContext → ValPairs → HOutcome

/-- The proxy object: `getattr(self.proxy, name)` yields a method or
raises `AttributeError` (modelled by `none`). -/
def Proxy : Type := String → Option HandlerFn

/-- Python truthiness of `msg_id` / `method` after `pop` / `get`:
a missing key (`None`) is falsy. -/
def optTruthy : Option Val → Bool
  | none => false
  | some v => Val.truthy v

/-- Python `args.iteritems()`: succeeds only on a dict. -/
def argsPairs : Val → Option ValPairs
  | Val.dict ps => some ps
  | _ => none

/-- The result of one `_receive` run: its event trace and the exception
escaping into the `exception.wrap_exception` decorator, if any. -/
structure ReceiveResult where
  events : List REvent
  raised : Option String

/-- The envelope after `message_data.pop('_msg_id', None)`. -/
def envAfterPop (env : List (String × Val)) : List (String × Val) :=
  env.filter (fun kv => !(kv.1 == "_msg_id"))

/-- The `_msg_id` value popped from the envelope. -/
def envMsgId (env : List (String × Val)) : Option Val :=
  env.lookup ("_msg_id")

/-- The residual envelope after `_unpack_context` popped the context keys. -/
def receiveResidual (env : List (String × Val)) : List (String × Val) :=
  (_unpack_context (envAfterPop env) ⟨0, 0, 0, 0, 0, 0⟩ (fun _ => 0)).1

/-- The context produced by `_unpack_context` for this envelope. -/
def receiveCtx (env : List (String × Val)) (now : Datetime) (r : Nat → Nat) :
    Option RequestContext :=
  (_unpack_context (envAfterPop env) now r).2

/-- The `method` field of the residual envelope. -/
def receiveMethod (env : List (String × Val)) : Option Val :=
  (receiveResidual env).lookup ("method")

/-- The `args` field of the residual envelope (`get('args', {})`). -/
def receiveArgs (env : List (String × Val)) : Val :=
  ((receiveResidual env).lookup ("args")).getD (Val.dict ValPairs.nil)

/-- The `'No method for message: %s'` error text. -/
def noMethodText (residual : List (String × Val)) : String :=
  "No method for message: " ++ envRepr residual

/-- Dispatch `AdapterConsumer._receive(message_data, message)` (`src/nova/rpc.py`).

Order of operations, as in the source: pop `_msg_id`; unpack the context
(a malformed context dict makes `RequestContext.from_dict` raise before
anything observable happens — in particular before the ack); read `method`
and `args`; ack; on a falsy method, log and call `msg_reply`
unconditionally with the popped `msg_id` (which may be `None`); otherwise
look up the method on the proxy, normalize the argument keys, invoke, and
reply when `msg_id` is truthy — on success with the return value, on an
exception with the processed `exc_info`. -/
def receive (proxy : Proxy) (env : List (String × Val)) (now : Datetime)
    (r : Nat → Nat) : ReceiveResult :=
  let msgId := envMsgId env
  match _unpack_context (envAfterPop env) now r with
  | (_, none) => ⟨[], some ("TypeError")⟩
  | (residual, some ctxt) =>
    let method := residual.lookup ("method")
    let args := (residual.lookup ("args")).getD (Val.dict ValPairs.nil)
    if !(optTruthy method) then
      let rep := msg_reply msgId (Val.str (noMethodText residual)) none
      ⟨REvent.ack :: REvent.logWarnNoMethod :: rep.events,
       (rep.raised).map ExcInfo.typeName⟩
    else
      let name := Val.pyStr ((method).getD Val.null)
      match proxy name with
      | none => ⟨[REvent.ack, REvent.lookupMethod name], some ("AttributeError")⟩
      | some f =>
        match argsPairs args with
        | none =>
            ⟨[REvent.ack, REvent.lookupMethod name], some ("AttributeError")⟩
        | some ps =>
          match f ctxt ps with
          | HOutcome.ok v =>
            if optTruthy msgId then
              let rep := msg_reply msgId v none
              match rep.raised with
              | none =>
                  ⟨REvent.ack :: REvent.lookupMethod name :: REvent.invoke name ::
                    rep.events, none⟩
              | some e =>
                  let rep2 := msg_reply msgId Val.null (some e)
                  ⟨REvent.ack :: REvent.lookupMethod name :: REvent.invoke name ::
                    (rep.events ++ (REvent.logException :: rep2.events)),
                   (rep2.raised).map ExcInfo.typeName⟩
            else ⟨[REvent.ack, REvent.lookupMethod name, REvent.invoke name], none⟩
          | HOutcome.exc e =>
            if optTruthy msgId then
              let rep2 := msg_reply msgId Val.null (some e)
              ⟨REvent.ack :: REvent.lookupMethod name :: REvent.invoke name ::
                REvent.logException :: rep2.events,
               (rep2.raised).map ExcInfo.typeName⟩
            else
              ⟨[REvent.ack, REvent.lookupMethod name, REvent.invoke name,
                REvent.logException], none⟩

/-- The successful publish events of a trace, as `(msg_id, payload)` pairs. -/
def sendsOf (l : List REvent) : List (Option Val × ReplyEnv) :=
  l.filterMap (fun e => match e with
    | REvent.send m p => some (m, p)
    | _ => none)

/-- Predicate selecting ack events. -/
def isAck : REvent → Bool
  | REvent.ack => true
  | _ => false

/-- Predicate selecting successful publish events. -/
def isSend : REvent → Bool
  | REvent.send _ _ => true
  | _ => false

/-- Predicate selecting handler invocations. -/
def isInvoke : REvent → Bool
  | REvent.invoke _ => true
  | _ => false

/-- Predicate selecting method lookups on the proxy. -/
def isLookup : REvent → Bool
  | REvent.lookupMethod _ => true
  | _ => false

/-!
`call` reply handling and `RemoteError` (`src/nova/rpc.py`)
-/

/-- Python `repr` of a list of strings, as `'%s' % traceback` renders the
formatted-traceback list inside `RemoteError`'s message. -/
def pyReprStrList (l : List String) : String :=
  "[" ++ String.intercalate (", ") (l.map (fun s => "\x27" ++ s ++ "\x27")) ++ "]"

/-- Failure value `RemoteError(exc_type, value, traceback)` (`src/nova/rpc.py`). -/
structure RemoteError where
  exc_type : String
  value : String
  traceback : List String

/-- The joined string `'%s %s\n%s' % (exc_type, value, traceback)` passed
to `Error.__init__`, i.e. the rendered message of a `RemoteError`. -/
def RemoteError.message (e : RemoteError) : String :=
  e.exc_type ++ " " ++ e.value ++ "\n" ++ pyReprStrList e.traceback

/-- What `call`'s `WaitMessage` callback stores for one reply envelope:
`RemoteError(*data['failure'])` when `data['failure']` is truthy, the raw
`data['result']` otherwise. -/
def waitMessageStore (data : ReplyEnv) : Except RemoteError Val :=
  match data.failure with
  | some t => Except.error ⟨t.1, t.2.1, t.2.2⟩
  | none => Except.ok data.result

/-- The tail of `call(context, topic, msg)` after one reply envelope was
consumed: `raise wait_msg.result` when the stored outcome is an exception
(`RemoteError` is the only exception the callback ever stores), otherwise
`return wait_msg.result`. -/
def callObserve (data : ReplyEnv) : Except RemoteError Val :=
  match waitMessageStore data with
  | Except.error e => Except.error e
  | Except.ok v => Except.ok v

/-!
Consumer reconnection (`Consumer.fetch`, `src/nova/rpc.py`)
-/

/-- Which of the fallible steps inside `Consumer.fetch`'s `try` block
succeed on this run: `Connection.recreate()`, `create_backend()`,
`declare()` and the parent-class `fetch`. -/
structure FetchOracle where
  recreateOk : Bool
  backendOk : Bool
  declareOk : Bool
  fetchOk : Bool

/-- Observable events of one `Consumer.fetch` run. -/
inductive FEvent where
  | recreate : FEvent
  | createBackend : FEvent
  | declare : FEvent
  | parentFetch : FEvent
  | logReconnected : FEvent
  | logFetchFail : FEvent

/-- The `try` block of `Consumer.fetch`: the events it emits before either
finishing with the new `failed_connection` value (`some`) or raising
(`none`). -/
def fetchBody (failed : Bool) (o : FetchOracle) : List FEvent × Option Bool :=
  let (pre, ok) :=
    if failed then
      if !o.recreateOk then ([FEvent.recreate], false)
      else if !o.backendOk then ([FEvent.recreate, FEvent.createBackend], false)
      else if !o.declareOk then
        ([FEvent.recreate, FEvent.createBackend, FEvent.declare], false)
      else ([FEvent.recreate, FEvent.createBackend, FEvent.declare], true)
    else ([], true)
  if !ok then (pre, none)
  else if !o.fetchOk then (pre ++ [FEvent.parentFetch], none)
  else if failed then
    (pre ++ [FEvent.parentFetch, FEvent.logReconnected], some false)
  else (pre ++ [FEvent.parentFetch], some failed)

/-- The result of `Consumer.fetch`: the new `failed_connection` flag, the
events, and whether an exception escaped to the caller (the bare
`except Exception` makes this `false` by construction). -/
structure FetchResult where
  failed : Bool
  events : List FEvent
  escaped : Bool

/-- Fetch wrapper `Consumer.fetch` (`src/nova/rpc.py`): run the `try` block; on an
exception, log once if `failed_connection` was not already set, and set
it. -/
def Consumer.fetch (failed : Bool) (o : FetchOracle) : FetchResult :=
  match fetchBody failed o with
  | (evs, some failed1) => ⟨failed1, evs, false⟩
  | (evs, none) =>
    if !failed then ⟨true, evs ++ [FEvent.logFetchFail], false⟩
    else ⟨failed, evs, false⟩

/-- Whether the `try` block of this `fetch` run raised. -/
def fetchRaised (failed : Bool) (o : FetchOracle) : Bool :=
  ((fetchBody failed o).2).isNone

/-- Predicate selecting the once-per-episode failure log. -/
def isLogFetchFail : FEvent → Bool
  | FEvent.logFetchFail => true
  | _ => false

/-!
Consumer construction retries (`Consumer.__init__`, `src/nova/rpc.py`)
-/

/-- Observable events of `Consumer.__init__`: the `time.sleep` before each
retry and each connection attempt. -/
inductive CEvent where
  | sleep (seconds : Nat) : CEvent
  | attempt (i : Nat) : CEvent

/-- How `Consumer.__init__` ends: the loop finished with the given
`failed_connection` value, or the process called `sys.exit(code)`. -/
inductive CInitResult where
  | finished (failedConnection : Bool) : CInitResult
  | exited (code : Nat) : CInitResult

/-- The retry loop of `Consumer.__init__`: attempt `i` with `fuel`
attempts remaining; `o i = true` means `super().__init__` succeeds on
attempt `i`.  The `([], true)` base case is only reached after a failed
attempt already set `failed_connection = True`
(`FLAGS.rabbit_max_retries > 0`). -/
def consumerInitLoop (o : Nat → Bool) (interval : Nat) :
    Nat → Nat → List CEvent × Bool
  | _, 0 => ([], true)
  | i, fuel + 1 =>
    let sleeps := if 0 < i then [CEvent.sleep interval] else []
    if o i then (sleeps ++ [CEvent.attempt i], false)
    else
      let rest := consumerInitLoop o interval (i + 1) fuel
      (sleeps ++ [CEvent.attempt i] ++ rest.1, rest.2)

/-- Constructor `Consumer.__init__` (`src/nova/rpc.py`): up to `maxRetries` attempts,
sleeping `interval` seconds before every attempt but the first; a success
sets `failed_connection = False` and breaks; if the flag is still set
after the loop the process exits with code 1. -/
def Consumer.construct (maxRetries interval : Nat) (o : Nat → Bool) :
    List CEvent × CInitResult :=
  let run := consumerInitLoop o interval 0 maxRetries
  if run.2 then (run.1, CInitResult.exited 1)
  else (run.1, CInitResult.finished false)

/-- Predicate selecting connection attempts. -/
def isAttempt : CEvent → Bool
  | CEvent.attempt _ => true
  | _ => false

/-- The event block of attempt `i`: its preceding sleep (for every attempt
but the first) followed by the attempt itself. -/
def attemptBlock (interval i : Nat) : List CEvent :=
  (if 0 < i then [CEvent.sleep interval] else []) ++ [CEvent.attempt i]

/-!
Service startup (`Service.start`, `src/nova/service.py`)
-/

/-- Observable events of `Service.start`. -/
inductive SEvent where
  | initHost : SEvent
  | openConnection : SEvent
  | attachTopicConsumer (topic : String) : SEvent
  | attachFanoutConsumer (topic : String) : SEvent
  | registerReportStateTimer (interval : Nat) : SEvent
  | registerPeriodicTimer (interval : Nat) : SEvent

/-- Python truthiness of an optional integer interval (`None` and `0` are
falsy). -/
def intervalTruthy : Option Nat → Bool
  | none => false
  | some n => !(n == 0)

/-- Startup `Service.start` (`src/nova/service.py`): `init_host`, three fresh
broker connections, then — only when `report_interval` is truthy — the
shared-topic, per-host-topic and fanout consumers plus the `report_state`
timer, and — only when `periodic_interval` is truthy — the
`periodic_tasks` timer. -/
def Service.start (topic host : String) (report periodic : Option Nat) :
    List SEvent :=
  [SEvent.initHost, SEvent.openConnection, SEvent.openConnection,
   SEvent.openConnection]
  ++ (if intervalTruthy report then
        [SEvent.attachTopicConsumer topic,
         SEvent.attachTopicConsumer (topic ++ "." ++ host),
         SEvent.attachFanoutConsumer topic,
         SEvent.registerReportStateTimer ((report).getD 0)]
      else [])
  ++ (if intervalTruthy periodic then
        [SEvent.registerPeriodicTimer ((periodic).getD 0)]
      else [])

/-- Predicate selecting consumer attachments. -/
def isAttachConsumer : SEvent → Bool
  | SEvent.attachTopicConsumer _ => true
  | SEvent.attachFanoutConsumer _ => true
  | _ => false

/-- Predicate selecting the `report_state` timer registration. -/
def isReportTimer : SEvent → Bool
  | SEvent.registerReportStateTimer _ => true
  | _ => false

/-- Predicate selecting the `periodic_tasks` timer registration. -/
def isPeriodicTimer : SEvent → Bool
  | SEvent.registerPeriodicTimer _ => true
  | _ => false

/-- Predicate selecting `init_host`. -/
def isInitHost : SEvent → Bool
  | SEvent.initHost => true
  | _ => false

/-- Predicate selecting broker connection openings. -/
def isOpenConnection : SEvent → Bool
  | SEvent.openConnection => true
  | _ => false

/-!
Derived reply shapes and concrete fixtures
-/

/-- The reply envelope the dispatch contract associates with a handler
outcome: `{result: v, failure: null}` on a normal return,
`{result: null, failure: (type-name, str(value), tb-lines)}` on a raise. -/
def replyFor : HOutcome → ReplyEnv
  | HOutcome.ok v => ⟨v, none⟩
  | HOutcome.exc e => ⟨Val.null, some (e.typeName, e.valueStr, e.tbLines)⟩

/-- Whether the handler outcome's reply payload is JSON-serializable (an
exception reply always is: its pieces are strings). -/
def outcomeSerializable : HOutcome → Bool
  | HOutcome.ok v => Val.serializable v
  | HOutcome.exc _ => true

/-- Whether a value is a Python instance (has a `__dict__`). -/
def isObjVal : Val → Bool
  | Val.obj _ => true
  | _ => false

/-- Predicate selecting failed first-send attempts. -/
def isSendFail : REvent → Bool
  | REvent.sendTypeError _ _ => true
  | _ => false

/-- Key lookup inside a `Val.dict` payload. -/
def ValPairs.lookup : ValPairs → String → Option Val
  | .nil, _ => none
  | .cons k v tl, key => if k == key then some v else ValPairs.lookup tl key

/-- A fixed `utils.utcnow()` value for concrete runs. -/
def now0 : Datetime := ⟨2010, 1, 1, 0, 0, 0⟩

/-- A fixed randomness stream for concrete runs. -/
def rand0 : Nat → Nat := fun _ => 0

/-- An `echo` handler method: returns its `value` argument. -/
def echoFn : HandlerFn :=
  fun _ args => HOutcome.ok ((ValPairs.lookup args ("value")).getD Val.null)

/-- A handler method returning a non-serializable instance. -/
def objFn : HandlerFn :=
  fun _ _ => HOutcome.ok (Val.obj (ValPairs.cons ("a") Val.null ValPairs.nil))

/-- A proxy exposing only `echo`. -/
def echoProxy : Proxy :=
  fun name => if name == "echo" then some echoFn else none

/-- A proxy exposing only `mk`, which returns an instance. -/
def objProxy : Proxy :=
  fun name => if name == "mk" then some objFn else none

/-- A complete set of `_context_` wire fields. -/
def ctxFields : List (String × Val) :=
  [("_context_tenant", Val.str ("t")), ("_context_user", Val.str ("u")),
   ("_context_groups", Val.list ValList.nil), ("_context_remote_address", Val.null),
   ("_context_timestamp", Val.str ("2010-01-01T00:00:00Z")),
   ("_context_request_id", Val.str ("req"))]

/-- The context `_unpack_context` produces from `ctxFields`. -/
def ctxW : RequestContext :=
  ⟨Val.str ("u"), Val.str ("t"), Val.list ValList.nil, Val.null,
   ⟨2010, 1, 1, 0, 0, 0⟩, Val.str ("req")⟩

/-- The spec's missing-method scenario envelope `{"args":{},"_msg_id":"R"}`. -/
def envSpecScenario : List (String × Val) :=
  [("args", Val.dict ValPairs.nil), ("_msg_id", Val.str ("R"))]

/-- An envelope with a valid method but no `_context_` fields at all. -/
def envNoCtxMethod : List (String × Val) :=
  [("method", Val.str ("echo"))]

/-- A missing-method envelope with a well-formed context and `_msg_id` set. -/
def envNoMethodWithCtx : List (String × Val) :=
  ("args", Val.dict ValPairs.nil) :: ("_msg_id", Val.str ("R")) :: ctxFields

/-- A missing-method envelope with a well-formed context and no `_msg_id`. -/
def envNoMethodNoMsgId : List (String × Val) :=
  ("args", Val.dict ValPairs.nil) :: ctxFields

/-- An `echo` call envelope with a well-formed context and `_msg_id` `"R"`. -/
def envEchoCall : List (String × Val) :=
  ("method", Val.str ("echo")) ::
  ("args", Val.dict (ValPairs.cons ("value") (Val.str ("hi")) ValPairs.nil)) ::
  ("_msg_id", Val.str ("R")) :: ctxFields

/-- The same `echo` call with `_msg_id` present but equal to the empty
string (set, yet falsy for Python). -/
def envEchoEmptyMsgId : List (String × Val) :=
  ("method", Val.str ("echo")) ::
  ("args", Val.dict (ValPairs.cons ("value") (Val.str ("hi")) ValPairs.nil)) ::
  ("_msg_id", Val.str ("")) :: ctxFields

/-- A call envelope whose handler (`objProxy`) returns an instance. -/
def envObjCall : List (String × Val) :=
  ("method", Val.str ("mk")) :: ("args", Val.dict ValPairs.nil) ::
  ("_msg_id", Val.str ("R")) :: ctxFields

/-- The character class `[A-Z0-9-]` of the claimed request-id regex. -/
def requestIdCharOk (c : Char) : Prop :=
  (('A') ≤ c ∧ c ≤ ('Z')) ∨ (('0') ≤ c ∧ c ≤ ('9')) ∨ c = ('-')

instance requestIdCharOkDecidable (c : Char) : Decidable (requestIdCharOk c) := by
  unfold requestIdCharOk
  infer_instance

/-!
Supporting lemmas
-/

theorem strContains_of_append (needle mid tail : String) :
    strContains needle (needle ++ mid ++ tail) := by
  refine ⟨[], (mid ++ tail).data, ?_⟩
  simp [String.data_append]

theorem charsStart_append (l m : List Char) : charsStart l (l ++ m) = true := by
  induction l with
  | nil => rfl
  | cons c tl ih => simp [charsStart, ih]

theorem pyStartswith_append (s t : String) : pyStartswith s (s ++ t) = true := by
  rw [pyStartswith, String.data_append]
  exact charsStart_append _ _

theorem isotime_ne_empty (d : Datetime) : ¬(isotime d = "") := by
  intro h
  have h2 : (isotime d).data = [] := by rw [h]
  rw [isotime, String.data_append] at h2
  have h3 := (List.append_eq_nil.mp h2).2
  exact absurd h3 (by decide)

theorem genRequestId_length (r : Nat → Nat) : (genRequestId r).length = 20 := by
  simp [genRequestId, String.length]

theorem genRequestId_truthy (r : Nat → Nat) :
    Val.truthy (Val.str (genRequestId r)) = true := by
  have hne : ¬(genRequestId r = "") := by
    intro h
    have h2 := congrArg String.length h
    rw [genRequestId_length] at h2
    exact absurd h2 (by decide)
  simp [Val.truthy, hne]

/-- Every context produced by `RequestContext.__init__` satisfies the two
invariants assumed by the round-trip theorem: its `groups` field is a
fixpoint of the `groups and groups or []` normalization, and its
`request_id` is truthy. -/
theorem init_invariants (tenant user groups ra : Val) (ts : TsArg) (rid : Val)
    (now : Datetime) (r : Nat → Nat) :
    (Val.truthy (RequestContext.init tenant user groups ra ts rid now r).groups = true
      ∨ (RequestContext.init tenant user groups ra ts rid now r).groups
          = Val.list ValList.nil)
    ∧ Val.truthy (RequestContext.init tenant user groups ra ts rid now r).request_id
        = true := by
  constructor
  · by_cases hg : Val.truthy groups = true
    · left
      simp [RequestContext.init, hg]
    · right
      have hg2 : Val.truthy groups = false := by
        cases h2 : Val.truthy groups
        · rfl
        · exact absurd h2 hg
      simp [RequestContext.init, hg2]
  · by_cases hr : Val.truthy rid = true
    · simp [RequestContext.init, hr]
    · have hr2 : Val.truthy rid = false := by
        cases h : Val.truthy rid
        · rfl
        · exact absurd h hr
      simp [RequestContext.init, hr2, genRequestId_truthy]

theorem randomChoice_mem (draw : Nat) :
    randomChoice requestIdChars draw ∈ requestIdChars.data := by
  rw [randomChoice]
  have hlen : 0 < requestIdChars.data.length := by decide
  have hlt : draw % requestIdChars.data.length < requestIdChars.data.length :=
    Nat.mod_lt _ hlen
  rw [List.getD_eq_getElem?_getD, List.getElem?_eq_getElem hlt]
  simp

/-!
C2 — `call` reply handling
-/

/-- C2: for an observed reply envelope, `call` returns the `result` value
unchanged when `failure` is null, and raises the `RemoteError` built from
the `failure` triple otherwise; the error's rendered message contains both
the remote exception type name and the stringified value. -/
theorem call_reply_semantics :
    ∀ (res : Val) (t v : String) (tb : List String),
      callObserve ⟨res, none⟩ = Except.ok res
      ∧ callObserve ⟨res, some (t, v, tb)⟩ = Except.error ⟨t, v, tb⟩
      ∧ strContains t (RemoteError.message ⟨t, v, tb⟩)
      ∧ strContains v (RemoteError.message ⟨t, v, tb⟩) := by
  intro res t v tb
  refine ⟨rfl, rfl, ⟨[], (" " ++ v ++ "\n" ++ pyReprStrList tb).data, ?_⟩,
    ⟨(t ++ " ").data, ("\n" ++ pyReprStrList tb).data, ?_⟩⟩
  · simp [RemoteError.message, String.data_append]
  · simp [RemoteError.message, String.data_append]

/-!
C6 — `Consumer.fetch` failure handling
-/

/-- C6: `Consumer.fetch` never lets an exception escape; the
`failed_connection` flag after a run equals whether the `try` block raised
(any raise sets it, a clean run clears it); the failure is logged exactly
once and only when the flag was previously clear; a run entered with the
flag set first recreates the connection, and — when every step succeeds —
recreates the backend, redeclares, fetches, and resets the flag. -/
theorem consumer_fetch_failure_handling :
    ∀ (failed : Bool) (o : FetchOracle),
      (Consumer.fetch failed o).escaped = false
      ∧ (Consumer.fetch failed o).failed = fetchRaised failed o
      ∧ ((Consumer.fetch failed o).events.countP isLogFetchFail
          = if fetchRaised failed o && !failed then 1 else 0)
      ∧ ((Consumer.fetch true o).events.head? = some FEvent.recreate)
      ∧ Consumer.fetch true ⟨true, true, true, true⟩
          = ⟨false, [FEvent.recreate, FEvent.createBackend, FEvent.declare,
                     FEvent.parentFetch, FEvent.logReconnected], false⟩ := by
  intro failed o
  obtain ⟨a, b, c, d⟩ := o
  cases failed <;> cases a <;> cases b <;> cases c <;> cases d <;>
    exact ⟨rfl, rfl, rfl, rfl, rfl⟩

/-!
C9 — generated request ids
-/

/-- C9: when `RequestContext.__init__` receives no `request_id` (Python
`None`), the id it stores is the 20-character generated one, and every
generated id consists only of characters from `[A-Z0-9-]`. -/
theorem requestContext_generated_request_id_format :
    ∀ (r : Nat → Nat) (tenant user groups ra : Val) (ts : TsArg) (now : Datetime),
      (RequestContext.init tenant user groups ra ts Val.null now r).request_id
        = Val.str (genRequestId r)
      ∧ (genRequestId r).length = 20
      ∧ ∀ c ∈ (genRequestId r).data, requestIdCharOk c := by
  intro r tenant user groups ra ts now
  refine ⟨rfl, ?_, ?_⟩
  · simp [genRequestId, String.length]
  · intro c hc
    have hc2 : c ∈ (List.range 20).map (fun i => randomChoice requestIdChars (r i)) := hc
    obtain ⟨i, _, hi⟩ := List.mem_map.mp hc2
    have hall : ∀ x ∈ requestIdChars.data, requestIdCharOk x := by decide
    exact hi ▸ hall _ (randomChoice_mem (r i))

/-!
C10 — `Service.start` with a falsy report interval
-/

/-- C10: when `report_interval` is falsy, `Service.start` attaches no
consumer and registers no `report_state` timer, yet still calls
`init_host` once and opens three broker connections; the `periodic_tasks`
timer is registered exactly when `periodic_interval` is truthy. -/
theorem service_start_no_report (topic host : String) (report periodic : Option Nat)
    (h : intervalTruthy report = false) :
    (Service.start topic host report periodic).countP isAttachConsumer = 0
    ∧ (Service.start topic host report periodic).countP isReportTimer = 0
    ∧ (Service.start topic host report periodic).countP isInitHost = 1
    ∧ (Service.start topic host report periodic).countP isOpenConnection = 3
    ∧ (Service.start topic host report periodic).countP isPeriodicTimer
        = (if intervalTruthy periodic then 1 else 0) := by
  rw [Service.start, h]
  cases hp : intervalTruthy periodic <;>
    simp [List.countP_append, List.countP_cons, isAttachConsumer, isReportTimer,
      isInitHost, isOpenConnection, isPeriodicTimer]

/-- C10 witness: a concrete start with `report_interval = None` and
`periodic_interval = 60`. -/
theorem service_start_no_report_witness :
    intervalTruthy none = false
    ∧ (Service.start ("compute") ("host1") none (some 60)).countP isAttachConsumer = 0
    ∧ (Service.start ("compute") ("host1") none (some 60)).countP isReportTimer = 0
    ∧ (Service.start ("compute") ("host1") none (some 60)).countP isInitHost = 1
    ∧ (Service.start ("compute") ("host1") none (some 60)).countP isOpenConnection = 3
    ∧ (Service.start ("compute") ("host1") none (some 60)).countP isPeriodicTimer = 1 :=
  ⟨rfl, service_start_no_report ("compute") ("host1") none (some 60) rfl⟩

/-!
C7 — `Consumer.__init__` retry policy
-/

theorem consumerInitLoop_all_fail (o : Nat → Bool) (intv : Nat) :
    ∀ (fuel i : Nat), (∀ k, k < fuel → o (i + k) = false) →
      consumerInitLoop o intv i fuel
        = (((List.range' i fuel).map (attemptBlock intv)).flatten, true) := by
  intro fuel
  induction fuel with
  | zero => intro i h; simp [consumerInitLoop]
  | succ n ih =>
    intro i h
    have h0 : o i = false := by simpa using h 0 (Nat.succ_pos n)
    have hrest := ih (i + 1) (fun k hk => by
      have h2 := h (k + 1) (by omega)
      have h3 : i + (k + 1) = i + 1 + k := by omega
      rw [h3] at h2
      exact h2)
    rw [consumerInitLoop]
    simp only [h0, hrest, List.range'_succ, List.map_cons, List.flatten_cons,
      Bool.false_eq_true, if_false]
    simp [attemptBlock, List.append_assoc]

theorem consumerInitLoop_first_success (o : Nat → Bool) (intv : Nat) :
    ∀ (fuel j i : Nat), j < fuel → o (i + j) = true →
      (∀ k, k < j → o (i + k) = false) →
      consumerInitLoop o intv i fuel
        = (((List.range' i (j + 1)).map (attemptBlock intv)).flatten, false) := by
  intro fuel
  induction fuel with
  | zero => intro j i hj _ _; exact absurd hj (by omega)
  | succ n ih =>
    intro j i hj hsucc hfirst
    cases j with
    | zero =>
      have h0 : o i = true := by simpa using hsucc
      rw [consumerInitLoop]
      simp only [h0, if_true]
      simp [List.range'_succ, attemptBlock]
    | succ m =>
      have h0 : o i = false := by simpa using hfirst 0 (Nat.succ_pos m)
      have hsucc2 : o (i + 1 + m) = true := by
        have h5 := hsucc
        rw [show i + (m + 1) = i + 1 + m from by omega] at h5
        exact h5
      have hrest := ih m (i + 1) (by omega) hsucc2
        (fun k hk => by
          have h2 := hfirst (k + 1) (by omega)
          rw [show i + (k + 1) = i + 1 + k from by omega] at h2
          exact h2)
      rw [consumerInitLoop]
      simp only [h0, Bool.false_eq_true, if_false]
      simp only [hrest]
      conv_rhs => rw [List.range'_succ]
      simp [attemptBlock, List.append_assoc]

theorem consumerInitLoop_count (o : Nat → Bool) (intv : Nat) :
    ∀ (fuel i : Nat), (consumerInitLoop o intv i fuel).1.countP isAttempt ≤ fuel := by
  intro fuel
  induction fuel with
  | zero => intro i; simp [consumerInitLoop]
  | succ n ih =>
    intro i
    rw [consumerInitLoop]
    have hc : ∀ b : List CEvent, (if 0 < i then [CEvent.sleep intv] else []).countP isAttempt = 0 := by
      intro b
      by_cases hi : 0 < i <;> simp [hi, isAttempt]
    cases hoi : o i <;>
      simp only [hoi, Bool.false_eq_true, if_false, if_true] <;>
      simp [List.countP_append, List.countP_cons, isAttempt, hc []]
    · have := ih (i + 1)
      omega

/-- C7: `Consumer.__init__` makes at most `maxRetries` connection
attempts, sleeping `interval` seconds before every attempt except the
first (each attempt `i > 0` is preceded by its sleep inside
`attemptBlock`); the first successful attempt ends the loop with
`failed_connection = False` and no further attempts; if every attempt
fails the process exits with code 1. -/
theorem consumer_construct_retry_policy (n interval : Nat) (o : Nat → Bool)
    (h : 0 < n) :
    ((Consumer.construct n interval o).1.countP isAttempt ≤ n)
    ∧ (∀ j, j < n → o j = true → (∀ k, k < j → o k = false) →
        Consumer.construct n interval o
          = (((List.range' 0 (j + 1)).map (attemptBlock interval)).flatten,
             CInitResult.finished false))
    ∧ ((∀ k, k < n → o k = false) →
        Consumer.construct n interval o
          = (((List.range' 0 n).map (attemptBlock interval)).flatten,
             CInitResult.exited 1)) := by
  refine ⟨?_, ?_, ?_⟩
  · have hcount := consumerInitLoop_count o interval n 0
    cases hr : (consumerInitLoop o interval 0 n).2 <;>
      simp [Consumer.construct, hr] <;> exact hcount
  · intro j hj hoj hfirst
    have hloop := consumerInitLoop_first_success o interval n j 0 hj
      (by simpa using hoj) (fun k hk => by simpa using hfirst k hk)
    simp [Consumer.construct, hloop]
  · intro hall
    have hloop := consumerInitLoop_all_fail o interval n 0
      (fun k hk => by simpa using hall k hk)
    simp [Consumer.construct, hloop]

/-- C7 witness: two attempts with the first failing — one sleep before the
second attempt, then success with `failed_connection = False`. -/
theorem consumer_construct_retry_policy_witness :
    (0 < 2)
    ∧ Consumer.construct 2 10 (fun i => i == 1)
        = ([CEvent.attempt 0, CEvent.sleep 10, CEvent.attempt 1],
           CInitResult.finished false) := by
  refine ⟨by decide, ?_⟩
  have h := (consumer_construct_retry_policy 2 10 (fun i => i == 1) (by decide)).2.1
    1 (by decide) rfl (fun k hk => by
      have hk0 : k = 0 := by omega
      rw [hk0]
      rfl)
  exact h

/-!
C4 — context pack/unpack round trip
-/

theorem beq_false_of_marker (a b : String) (ha : pyStartswith ctxMarker a = false)
    (hb : pyStartswith ctxMarker b = true) : (a == b) = false := by
  cases hab : a == b
  · rfl
  · have hexact : a = b := eq_of_beq hab
    rw [hexact] at ha
    exact Bool.noConfusion (ha.symm.trans hb)

theorem marker_beq (a b : String) (hne : (a == b) = false) :
    ((ctxMarker ++ a) == (ctxMarker ++ b)) = false := by
  cases h : (ctxMarker ++ a) == (ctxMarker ++ b)
  · rfl
  · have h2 : ctxMarker ++ a = ctxMarker ++ b := eq_of_beq h
    have h4 := congrArg String.data h2
    rw [String.data_append, String.data_append] at h4
    have h3 : a = b := String.ext (List.append_cancel_left h4)
    rw [h3] at hne
    simp at hne

theorem dictUpdate_append (kvs : List (String × Val)) :
    ∀ m : List (String × Val),
      (∀ p ∈ kvs, ∀ q ∈ m, (q.1 == p.1) = false) →
      kvs.Pairwise (fun a b => (a.1 == b.1) = false) →
      dictUpdate m kvs = m ++ kvs := by
  induction kvs with
  | nil => intro m _ _; simp [dictUpdate]
  | cons kv rest ih =>
    intro m hfresh hpair
    obtain ⟨hhead, htail⟩ := List.pairwise_cons.mp hpair
    have hany : m.any (fun e => e.1 == kv.1) = false := by
      rw [List.any_eq_false]
      intro q hq
      simp [hfresh kv (List.mem_cons_self kv rest) q hq]
    have hset : dictSet m kv = m ++ [kv] := by
      simp [dictSet, hany]
    have hfresh2 : ∀ p ∈ rest, ∀ q ∈ m ++ [kv], (q.1 == p.1) = false := by
      intro p hp q hq
      rcases List.mem_append.mp hq with hq1 | hq1
      · exact hfresh p (List.mem_cons_of_mem kv hp) q hq1
      · rw [List.mem_singleton.mp hq1]
        exact hhead p hp
    have hstep : dictUpdate m (kv :: rest) = dictUpdate (m ++ [kv]) rest := by
      rw [dictUpdate, List.foldl_cons, hset]
      rfl
    rw [hstep, ih (m ++ [kv]) hfresh2 htail]
    simp

theorem drop_user : (ctxMarker ++ ("user" : String)).drop 9 = ("user" : String) := rfl

theorem drop_tenant : (ctxMarker ++ ("tenant" : String)).drop 9 = ("tenant" : String) := rfl

theorem drop_groups : (ctxMarker ++ ("groups" : String)).drop 9 = ("groups" : String) := rfl

theorem drop_remote : (ctxMarker ++ ("remote_address" : String)).drop 9
    = ("remote_address" : String) := rfl

theorem drop_timestamp : (ctxMarker ++ ("timestamp" : String)).drop 9
    = ("timestamp" : String) := rfl

theorem drop_request : (ctxMarker ++ ("request_id" : String)).drop 9
    = ("request_id" : String) := rfl

theorem from_dict_wire (u t g ra rid : Val) (s : String) (now : Datetime)
    (r : Nat → Nat) :
    RequestContext.from_dict
      [("user", u), ("tenant", t), ("groups", g), ("remote_address", ra),
       ("timestamp", Val.str s), ("request_id", rid)] now r
      = some (RequestContext.init t u g ra (TsArg.strA s) rid now r) := rfl

theorem init_wire_eval (c : RequestContext) (now : Datetime) (r : Nat → Nat)
    (hgroups : Val.truthy c.groups = true ∨ c.groups = Val.list ValList.nil)
    (hrid : Val.truthy c.request_id = true) :
    RequestContext.init c.tenant c.user c.groups c.remote_address
      (TsArg.strA (isotime c.timestamp)) c.request_id now r
      = ⟨c.user, c.tenant, c.groups, c.remote_address,
         parse_isotime (isotime c.timestamp), c.request_id⟩ := by
  have hts : TsArg.truthy (TsArg.strA (isotime c.timestamp)) = true := by
    simp [TsArg.truthy, isotime_ne_empty c.timestamp]
  rcases hgroups with hg | hg
  · simp [RequestContext.init, hg, hts, hrid]
  · have hgnil : Val.truthy (Val.list ValList.nil) = false := rfl
    simp [RequestContext.init, hg, hgnil, hts, hrid]

/-- C4: packing a context into a `_context_`-free message and unpacking the
result yields the original message as residual and a context with the same
`user`, `tenant`, `groups`, `remote_address` and `request_id`, and a
timestamp equal to the original's up to ISO-8601 round-trip
(`parse_isotime (isotime ...)`).  The `groups`/`request_id` hypotheses are
the invariants `__init__` establishes for every constructed context. -/
theorem pack_unpack_roundtrip (msg : List (String × Val)) (c : RequestContext)
    (now : Datetime) (r : Nat → Nat)
    (hmsg : ∀ kv ∈ msg, pyStartswith ctxMarker kv.1 = false)
    (hgroups : Val.truthy c.groups = true ∨ c.groups = Val.list ValList.nil)
    (hrid : Val.truthy c.request_id = true) :
    _unpack_context (_pack_context msg c) now r
      = (msg, some ⟨c.user, c.tenant, c.groups, c.remote_address,
                    parse_isotime (isotime c.timestamp), c.request_id⟩) := by
  have hpacked : _pack_context msg c
      = msg ++ (RequestContext.to_dict c).map (fun kv => (ctxMarker ++ kv.1, kv.2)) := by
    refine dictUpdate_append _ msg ?_ ?_
    · intro p hp q hq
      obtain ⟨kv0, _, hkv0eq⟩ := List.mem_map.mp hp
      refine beq_false_of_marker _ _ (hmsg q hq) ?_
      rw [← hkv0eq]
      exact pyStartswith_append _ _
    · simp only [RequestContext.to_dict, List.map_cons, List.map_nil]
      refine List.Pairwise.cons ?_ (List.Pairwise.cons ?_ (List.Pairwise.cons ?_
        (List.Pairwise.cons ?_ (List.Pairwise.cons ?_ (List.Pairwise.cons ?_
          List.Pairwise.nil))))) <;> intro b hb <;> fin_cases hb <;>
        exact marker_beq _ _ (by decide)
  rw [hpacked, _unpack_context]
  have hf1 : (msg.filter (fun kv => pyStartswith ctxMarker kv.1)) = [] := by
    rw [List.filter_eq_nil_iff]
    intro kv hkv
    simp [hmsg kv hkv]
  have hf1n : (msg.filter (fun kv => !(pyStartswith ctxMarker kv.1))) = msg := by
    rw [List.filter_eq_self]
    intro kv hkv
    simp [hmsg kv hkv]
  have hf2 : (((RequestContext.to_dict c).map
      (fun kv => (ctxMarker ++ kv.1, kv.2))).filter
        (fun kv => pyStartswith ctxMarker kv.1))
      = (RequestContext.to_dict c).map (fun kv => (ctxMarker ++ kv.1, kv.2)) := by
    rw [List.filter_eq_self]
    intro kv hkv
    obtain ⟨kv0, _, hkv0eq⟩ := List.mem_map.mp hkv
    rw [← hkv0eq]
    exact pyStartswith_append _ _
  have hf2n : (((RequestContext.to_dict c).map
      (fun kv => (ctxMarker ++ kv.1, kv.2))).filter
        (fun kv => !(pyStartswith ctxMarker kv.1))) = [] := by
    rw [List.filter_eq_nil_iff]
    intro kv hkv
    obtain ⟨kv0, _, hkv0eq⟩ := List.mem_map.mp hkv
    rw [← hkv0eq]
    simp [pyStartswith_append]
  have hmap : (((RequestContext.to_dict c).map
      (fun kv => (ctxMarker ++ kv.1, kv.2))).map (fun kv => (kv.1.drop 9, kv.2)))
      = [(("user" : String), c.user), (("tenant" : String), c.tenant),
         (("groups" : String), c.groups),
         (("remote_address" : String), c.remote_address),
         (("timestamp" : String), Val.str (isotime c.timestamp)),
         (("request_id" : String), c.request_id)] := by
    simp only [RequestContext.to_dict, List.map_cons, List.map_nil,
      drop_user, drop_tenant, drop_groups, drop_remote, drop_timestamp,
      drop_request]
  rw [List.filter_append, List.filter_append, hf1, hf1n, hf2, hf2n,
    List.append_nil, List.nil_append, hmap, from_dict_wire,
    init_wire_eval c now r hgroups hrid]

/-- C4 witness: a concrete one-key message and a concrete context
round-trip exactly, with the timestamp surviving the ISO-8601 round trip. -/
theorem pack_unpack_roundtrip_witness :
    (∀ kv ∈ [(("x" : String), Val.num 1)], pyStartswith ctxMarker kv.1 = false)
    ∧ Val.truthy ctxW.request_id = true
    ∧ _unpack_context (_pack_context [(("x" : String), Val.num 1)] ctxW) now0 rand0
        = ([(("x" : String), Val.num 1)],
           some ⟨Val.str ("u"), Val.str ("t"), Val.list ValList.nil, Val.null,
                 ⟨2010, 1, 1, 0, 0, 0⟩, Val.str ("req")⟩) := by
  refine ⟨by decide, rfl, ?_⟩
  exact pack_unpack_roundtrip [(("x" : String), Val.num 1)] ctxW now0 rand0
    (by decide) (Or.inr rfl) rfl

/-!
Reply-serialization lemmas shared by the dispatch claims
-/

theorem strsToValList_ser (l : List String) :
    ValList.serializable (strsToValList l) = true := by
  induction l with
  | nil => rfl
  | cons s tl ih => simp [strsToValList, ValList.serializable, Val.serializable, ih]

theorem replyEnv_toVal_ser (v : Val) (fw : Option FailTriple) :
    Val.serializable (ReplyEnv.toVal ⟨v, fw⟩) = Val.serializable v := by
  cases fw with
  | none => simp [ReplyEnv.toVal, Val.serializable, ValPairs.serializable]
  | some t =>
    simp [ReplyEnv.toVal, Val.serializable, ValPairs.serializable,
      ValList.serializable, strsToValList_ser]

theorem msg_reply_send (m : Option Val) (v : Val) (f : Option ExcInfo)
    (h : Val.serializable v = true) :
    msg_reply m v f
      = ⟨[REvent.send m ⟨v, f.map (fun e => (e.typeName, e.valueStr, e.tbLines))⟩],
         none⟩ := by
  simp [msg_reply, replyEnv_toVal_ser, h]

theorem msg_reply_no_ack (m : Option Val) (v : Val) (f : Option ExcInfo) :
    (msg_reply m v f).events.countP isAck = 0 := by
  simp only [msg_reply]
  split
  · simp [isAck]
  · split <;> simp [isAck]

/-!
C5 — ack placement
-/

/-- C5 counterexample: the envelope `{"method": "echo"}` carries no
`_context_` keys, so `_unpack_context` raises a `TypeError`
(`RequestContext` requires `tenant` and `user`) before `message.ack()` is
reached: the envelope is processed by `_receive` yet acked zero times, not
exactly once. -/
theorem receive_no_context_no_ack :
    (receive echoProxy envNoCtxMethod now0 rand0).events.countP isAck = 0
    ∧ (receive echoProxy envNoCtxMethod now0 rand0).raised = some ("TypeError") :=
  ⟨rfl, rfl⟩

/-- C5 (amended): for every envelope whose `_context_` fields unpack into a
valid `RequestContext`, `message.ack()` is the first observable event of
`_receive` and happens exactly once — in particular before any method
lookup, any handler invocation and any reply publish. -/
theorem receive_ack_first (proxy : Proxy) (env : List (String × Val))
    (now : Datetime) (r : Nat → Nat)
    (hctx : (receiveCtx env now r).isSome = true) :
    ∃ rest, (receive proxy env now r).events = REvent.ack :: rest
      ∧ rest.countP isAck = 0 := by
  rcases hu : _unpack_context (envAfterPop env) now r with ⟨res, ctxo⟩
  cases ctxo with
  | none =>
    rw [receiveCtx, hu] at hctx
    simp at hctx
  | some ctxt =>
    cases hc1 : optTruthy (res.lookup ("method")) with
    | false =>
      simp only [receive, hu, hc1, Bool.not_false, if_true]
      refine ⟨_, rfl, ?_⟩
      simp [List.countP_cons, isAck, msg_reply_no_ack]
    | true =>
      cases hc2 : proxy (Val.pyStr ((res.lookup ("method")).getD Val.null)) with
      | none =>
        simp only [receive, hu, hc1, Bool.not_true, if_false, hc2]
        refine ⟨_, rfl, ?_⟩
        simp [List.countP_cons, isAck]
      | some f =>
        cases hc3 : argsPairs ((res.lookup ("args")).getD (Val.dict ValPairs.nil)) with
        | none =>
          simp only [receive, hu, hc1, Bool.not_true, if_false, hc2, hc3]
          refine ⟨_, rfl, ?_⟩
          simp [List.countP_cons, isAck]
        | some ps =>
          cases hc4 : f ctxt ps with
          | ok v =>
            cases hc5 : optTruthy (envMsgId env) with
            | false =>
              simp only [receive, hu, hc1, Bool.not_true, if_false, hc2, hc3,
                hc4, hc5]
              refine ⟨_, rfl, ?_⟩
              simp [List.countP_cons, isAck]
            | true =>
              cases hc6 : (msg_reply (envMsgId env) v none).raised with
              | none =>
                simp only [receive, hu, hc1, Bool.not_true, if_false, hc2, hc3,
                  hc4, hc5, hc6, if_true]
                refine ⟨_, rfl, ?_⟩
                simp [List.countP_cons, isAck, msg_reply_no_ack]
              | some e2 =>
                simp only [receive, hu, hc1, Bool.not_true, if_false, hc2, hc3,
                  hc4, hc5, hc6, if_true]
                refine ⟨_, rfl, ?_⟩
                simp [List.countP_cons, List.countP_append, isAck, msg_reply_no_ack]
          | exc e =>
            cases hc5 : optTruthy (envMsgId env) with
            | false =>
              simp only [receive, hu, hc1, Bool.not_true, if_false, hc2, hc3,
                hc4, hc5]
              refine ⟨_, rfl, ?_⟩
              simp [List.countP_cons, isAck]
            | true =>
              simp only [receive, hu, hc1, Bool.not_true, if_false, hc2, hc3,
                hc4, hc5, if_true]
              refine ⟨_, rfl, ?_⟩
              simp [List.countP_cons, isAck, msg_reply_no_ack]

/-- C5 witness: a well-formed `echo` call envelope is acked exactly once,
first. -/
theorem receive_ack_first_witness :
    (receiveCtx envEchoCall now0 rand0).isSome = true
    ∧ ∃ rest, (receive echoProxy envEchoCall now0 rand0).events
        = REvent.ack :: rest ∧ rest.countP isAck = 0 :=
  ⟨rfl, receive_ack_first echoProxy envEchoCall now0 rand0 rfl⟩

/-!
C1 — missing-method envelopes
-/

/-- C1 counterexample, two halves.  First: on the spec's own scenario
envelope `{"args":{},"_msg_id":"R"}` (no `_context_` keys), `_receive`
raises `TypeError` inside `_unpack_context` before reaching the
missing-method branch, so no event at all is emitted — in particular no
`"No method"` reply is published on `R` although `_msg_id` is set.
Second: on a missing-method envelope with a well-formed context and *no*
`_msg_id`, `msg_reply` is still called (the call at `rpc.py:204` is not
guarded by `if msg_id:`), so a reply publish does happen — the message is
not simply dropped. -/
theorem receive_missing_method_counterexample :
    (envMsgId envSpecScenario = some (Val.str ("R"))
      ∧ (receive echoProxy envSpecScenario now0 rand0).events = []
      ∧ (receive echoProxy envSpecScenario now0 rand0).raised = some ("TypeError"))
    ∧ (envMsgId envNoMethodNoMsgId = none
      ∧ (receive echoProxy envNoMethodNoMsgId now0 rand0).events.countP isSend = 1) :=
  ⟨⟨rfl, rfl, rfl⟩, rfl, rfl⟩

/-- C1 (amended): for every envelope whose context unpacks into a valid
`RequestContext` and whose `method` is missing or falsy, the handler is
never invoked, and `msg_reply` publishes exactly one reply — on the direct
publisher whose `msg_id` is the envelope's popped `_msg_id` value (`None`
when the key is absent, rather than the message being dropped without a
reply) — whose `result` is a string containing `"No method"`. -/
theorem receive_missing_method_reply (proxy : Proxy) (env : List (String × Val))
    (now : Datetime) (r : Nat → Nat)
    (hctx : (receiveCtx env now r).isSome = true)
    (hm : optTruthy (receiveMethod env) = false) :
    (receive proxy env now r).events
      = [REvent.ack, REvent.logWarnNoMethod,
         REvent.send (envMsgId env)
           ⟨Val.str (noMethodText (receiveResidual env)), none⟩]
    ∧ (receive proxy env now r).events.countP isInvoke = 0
    ∧ strContains ("No method") (noMethodText (receiveResidual env)) := by
  rcases hu : _unpack_context (envAfterPop env) now r with ⟨res, ctxo⟩
  cases ctxo with
  | none => rw [receiveCtx, hu] at hctx; simp at hctx
  | some ctxt =>
    have hres : receiveResidual env = res := congrArg Prod.fst hu
    have hm2 : optTruthy (res.lookup ("method")) = false := by
      rw [receiveMethod, hres] at hm
      exact hm
    have hrep : msg_reply (envMsgId env) (Val.str (noMethodText res)) none
        = ⟨[REvent.send (envMsgId env) ⟨Val.str (noMethodText res), none⟩], none⟩ :=
      msg_reply_send (envMsgId env) (Val.str (noMethodText res)) none rfl
    have hev : (receive proxy env now r).events
        = [REvent.ack, REvent.logWarnNoMethod,
           REvent.send (envMsgId env) ⟨Val.str (noMethodText res), none⟩] := by
      simp only [receive, hu, hm2, Bool.not_false, if_true, hrep]
    refine ⟨?_, ?_, ?_⟩
    · rw [hev, hres]
    · rw [hev]
      simp [isInvoke]
    · rw [hres]
      exact strContains_of_append ("No method") (" for message: ") (envRepr res)

/-- C1 witness: a missing-method envelope with a valid context and
`_msg_id = "R"` produces exactly the ack, the warning, and one
`"No method ..."` reply on `R`. -/
theorem receive_missing_method_reply_witness :
    (receiveCtx envNoMethodWithCtx now0 rand0).isSome = true
    ∧ optTruthy (receiveMethod envNoMethodWithCtx) = false
    ∧ (receive echoProxy envNoMethodWithCtx now0 rand0).events
        = [REvent.ack, REvent.logWarnNoMethod,
           REvent.send (some (Val.str ("R")))
             ⟨Val.str ("No method for message: \x7b\x27args\x27: \x7b\x7d\x7d"),
              none⟩] :=
  ⟨rfl, rfl,
   (receive_missing_method_reply echoProxy envNoMethodWithCtx now0 rand0 rfl rfl).1⟩

/-!
C3 — replies for dispatched envelopes with a valid method
-/

/-- C3 counterexample, two halves.  First: with `_msg_id` set to the empty
string (set, but falsy in Python), the handler runs and returns normally
yet no reply is published, because `_receive` guards the reply with
`if msg_id:`.  Second: when the handler returns a non-JSON-serializable
value, the single published reply carries the stringified-field fallback
dict, not the value the handler returned. -/
theorem receive_valid_method_counterexample :
    (envMsgId envEchoEmptyMsgId = some (Val.str (""))
      ∧ (receive echoProxy envEchoEmptyMsgId now0 rand0).events.countP isInvoke = 1
      ∧ (receive echoProxy envEchoEmptyMsgId now0 rand0).events.countP isSend = 0)
    ∧ (sendsOf (receive objProxy envObjCall now0 rand0).events
        = [(some (Val.str ("R")),
            ⟨Val.dict (ValPairs.cons ("a") (Val.str ("None")) ValPairs.nil), none⟩)]
      ∧ ¬(Val.dict (ValPairs.cons ("a") (Val.str ("None")) ValPairs.nil)
          = Val.obj (ValPairs.cons ("a") Val.null ValPairs.nil))) :=
  ⟨⟨rfl, rfl, rfl⟩, rfl, fun hcon => Val.noConfusion hcon⟩

/-- C3 (amended): for every envelope with a valid context, `_msg_id` set to
a non-empty string, and a valid method resolving to a handler whose
outcome's reply payload is JSON-serializable, exactly one reply envelope is
published on the `_msg_id` direct publisher: `{result: v, failure: null}`
when the handler returns `v`, and
`{result: null, failure: (type-name, str(value), traceback-lines)}` when it
raises. -/
theorem receive_valid_method_reply (proxy : Proxy) (env : List (String × Val))
    (now : Datetime) (r : Nat → Nat) (ctxt : RequestContext) (mid : String)
    (mval : Val) (f : HandlerFn) (ps : ValPairs) (outcome : HOutcome)
    (hctx : receiveCtx env now r = some ctxt)
    (hmid : envMsgId env = some (Val.str mid))
    (hmid2 : ¬(mid = ""))
    (hm : receiveMethod env = some mval)
    (hmt : Val.truthy mval = true)
    (hp : proxy (Val.pyStr mval) = some f)
    (ha : argsPairs (receiveArgs env) = some ps)
    (ho : f ctxt ps = outcome)
    (hs : outcomeSerializable outcome = true) :
    sendsOf (receive proxy env now r).events
      = [(some (Val.str mid), replyFor outcome)]
    ∧ (receive proxy env now r).events.countP isSend = 1
    ∧ (receive proxy env now r).events.countP isInvoke = 1 := by
  rcases hu : _unpack_context (envAfterPop env) now r with ⟨res, ctxo⟩
  have hctx2 : ctxo = some ctxt := by
    rw [receiveCtx, hu] at hctx
    exact hctx
  subst hctx2
  have hres : receiveResidual env = res := congrArg Prod.fst hu
  have hm2 : res.lookup ("method") = some mval := by
    rw [receiveMethod, hres] at hm
    exact hm
  have hopt : optTruthy (res.lookup ("method")) = true := by
    rw [hm2]
    exact hmt
  have ha2 : argsPairs ((res.lookup ("args")).getD (Val.dict ValPairs.nil))
      = some ps := by
    rw [receiveArgs, hres] at ha
    exact ha
  have hmidT : optTruthy (envMsgId env) = true := by
    rw [hmid]
    simp [optTruthy, Val.truthy, hmid2]
  have hopt2 : optTruthy (some mval) = true := hmt
  cases outcome with
  | ok v =>
    have hsv : Val.serializable v = true := hs
    have hrep : msg_reply (envMsgId env) v none
        = ⟨[REvent.send (envMsgId env) ⟨v, none⟩], none⟩ :=
      msg_reply_send (envMsgId env) v none hsv
    have hev : (receive proxy env now r).events
        = [REvent.ack, REvent.lookupMethod (Val.pyStr mval),
           REvent.invoke (Val.pyStr mval), REvent.send (envMsgId env) ⟨v, none⟩] := by
      simp only [receive, hu, hopt, hopt2, Bool.not_true, if_false, hm2,
        Option.getD_some, hp, ha2, ho, hmidT, if_true, hrep]
      rfl
    rw [hev, hmid]
    refine ⟨?_, ?_, ?_⟩ <;>
      simp [sendsOf, List.filterMap_cons, isSend, isInvoke, replyFor]
  | exc e =>
    have hrep : msg_reply (envMsgId env) Val.null (some e)
        = ⟨[REvent.send (envMsgId env)
             ⟨Val.null, some (e.typeName, e.valueStr, e.tbLines)⟩], none⟩ :=
      msg_reply_send (envMsgId env) Val.null (some e) rfl
    have hev : (receive proxy env now r).events
        = [REvent.ack, REvent.lookupMethod (Val.pyStr mval),
           REvent.invoke (Val.pyStr mval), REvent.logException,
           REvent.send (envMsgId env)
             ⟨Val.null, some (e.typeName, e.valueStr, e.tbLines)⟩] := by
      simp only [receive, hu, hopt, hopt2, Bool.not_true, if_false, hm2,
        Option.getD_some, hp, ha2, ho, hmidT, if_true, hrep]
      rfl
    rw [hev, hmid]
    refine ⟨?_, ?_, ?_⟩ <;>
      simp [sendsOf, List.filterMap_cons, isSend, isInvoke, replyFor]

/-- C3 witness: a concrete `echo` call with `_msg_id = "R"` publishes
exactly one `{result: "hi", failure: null}` reply on `R`. -/
theorem receive_valid_method_reply_witness :
    (¬(("R" : String) = ""))
    ∧ sendsOf (receive echoProxy envEchoCall now0 rand0).events
        = [(some (Val.str ("R")), ⟨Val.str ("hi"), none⟩)]
    ∧ (receive echoProxy envEchoCall now0 rand0).events.countP isSend = 1 :=
  ⟨by decide,
   (receive_valid_method_reply echoProxy envEchoCall now0 rand0 ctxW ("R")
     (Val.str ("echo")) echoFn (ValPairs.cons ("value") (Val.str ("hi")) ValPairs.nil)
     (HOutcome.ok (Val.str ("hi"))) rfl rfl (by decide) rfl rfl rfl rfl rfl rfl).1,
   (receive_valid_method_reply echoProxy envEchoCall now0 rand0 ctxW ("R")
     (Val.str ("echo")) echoFn (ValPairs.cons ("value") (Val.str ("hi")) ValPairs.nil)
     (HOutcome.ok (Val.str ("hi"))) rfl rfl (by decide) rfl rfl rfl rfl rfl rfl).2.1⟩

/-!
C8 — `msg_reply` serialization fallback
-/

/-- C8 counterexample: a list containing an instance is not
JSON-serializable, so the first send raises `TypeError`; the fallback then
evaluates `reply.__dict__` on a list, which raises `AttributeError`: zero
successful sends occur and the exception escapes `msg_reply`, so the
"exactly one fallback send / never dropped" claim fails for this reply. -/
theorem msg_reply_fallback_counterexample :
    (msg_reply (some (Val.str ("R")))
        (Val.list (ValList.cons (Val.obj ValPairs.nil) ValList.nil))
        none).events.countP isSend = 0
    ∧ ((msg_reply (some (Val.str ("R")))
        (Val.list (ValList.cons (Val.obj ValPairs.nil) ValList.nil))
        none).raised).isSome = true :=
  ⟨rfl, rfl⟩

/-- C8 (amended): when the first send of `msg_reply` fails because the
payload is not JSON-serializable, exactly one fallback send occurs provided
the reply is an instance with named fields: the fallback's `result` maps
each field to the `repr` of its value and its `failure` field is unchanged.
When the unserializable reply has no `__dict__`, the fallback itself raises
`AttributeError` and no reply is sent. -/
theorem msg_reply_serialization_fallback (msgId : Option Val)
    (failure : Option ExcInfo) (fields : ValPairs) (reply : Val)
    (hns : Val.serializable reply = false) :
    ((msg_reply msgId (Val.obj fields) failure).events
      = [REvent.sendTypeError msgId
           ⟨Val.obj fields,
            failure.map (fun e => (e.typeName, e.valueStr, e.tbLines))⟩,
         REvent.send msgId
           ⟨Val.dict (ValPairs.mapRepr fields),
            failure.map (fun e => (e.typeName, e.valueStr, e.tbLines))⟩]
     ∧ (msg_reply msgId (Val.obj fields) failure).raised = none)
    ∧ (isObjVal reply = false →
        (msg_reply msgId reply failure).events
          = [REvent.sendTypeError msgId
              ⟨reply, failure.map (fun e => (e.typeName, e.valueStr, e.tbLines))⟩]
        ∧ ((msg_reply msgId reply failure).raised).isSome = true) := by
  refine ⟨⟨rfl, rfl⟩, ?_⟩
  intro hobj
  cases reply with
  | null => exact Bool.noConfusion hns
  | bool b => exact Bool.noConfusion hns
  | num n => exact Bool.noConfusion hns
  | str s2 => exact Bool.noConfusion hns
  | list xs =>
    simp only [msg_reply, replyEnv_toVal_ser, hns]
    exact ⟨rfl, rfl⟩
  | dict ps2 =>
    simp only [msg_reply, replyEnv_toVal_ser, hns]
    exact ⟨rfl, rfl⟩
  | obj f2 => exact Bool.noConfusion hobj

/-- C8 witness: a concrete instance reply falls back to its stringified
fields with the failure unchanged, after the failed first send. -/
theorem msg_reply_serialization_fallback_witness :
    Val.serializable (Val.list (ValList.cons (Val.obj ValPairs.nil) ValList.nil))
      = false
    ∧ (msg_reply (some (Val.str ("R")))
        (Val.obj (ValPairs.cons ("a") Val.null ValPairs.nil)) none).events
      = [REvent.sendTypeError (some (Val.str ("R")))
           ⟨Val.obj (ValPairs.cons ("a") Val.null ValPairs.nil), none⟩,
         REvent.send (some (Val.str ("R")))
           ⟨Val.dict (ValPairs.cons ("a") (Val.str ("None")) ValPairs.nil), none⟩] :=
  ⟨rfl, ((msg_reply_serialization_fallback (some (Val.str ("R"))) none
      (ValPairs.cons ("a") Val.null ValPairs.nil)
      (Val.list (ValList.cons (Val.obj ValPairs.nil) ValList.nil)) rfl).1).1⟩
